import Mathlib

/-!
Verification of the TDD todo application: the authentication and per-user
data-isolation slice (backend credential service and resource store, modelled
from the spec because the Python backend sources are not in the repository
snapshot), and the frontend components that are present in the sources
(`services/api.ts`, `contexts/AuthContext.tsx`, `pages/Home.tsx` TodoList,
`components/auth/RegisterForm.tsx`).
-/

namespace TddTodo

/-! ## Resource Store (backend todo service)

Modelled from the spec: the Python backend implementing the Todo resource
store is absent from the repository snapshot (only its HTTP usage document,
the frontend API client and the TypeScript `Todo` type are present), so the
store is modelled from the spec's section 4.2 and the `Todo` interface in
`frontend/src/types/todo.ts`. -/

/-- The Todo row, mirroring the TypeScript interface `Todo` in
`frontend/src/types/todo.ts` (timestamps modelled as natural numbers). -/
structure Todo where
  id : Nat
  title : String
  completed : Bool
  user_id : Nat
  created_at : Nat
  updated_at : Nat
deriving Repr, DecidableEq

/-- Modelled from the spec: the relational store holding all Todo rows, with
the database's auto-increment primary-key counter. -/
structure TodoStore where
  todos : List Todo
  nextId : Nat
deriving Repr, DecidableEq

/-- Modelled from the spec: error taxonomy of the resource store
(section 7 of the spec: Validation and NotFound are the two kinds the
store operations signal). -/
inductive StoreError where
  | NotFound
  | Validation
deriving Repr, DecidableEq

/-- Whitespace trimming of a string (the `.trim()` applied to titles and
form inputs), written by structural recursion on the character list so that
it evaluates inside the kernel. -/
def trimString (s : String) : String :=
  ⟨((s.toList.dropWhile Char.isWhitespace).reverse.dropWhile Char.isWhitespace).reverse⟩

/-- Modelled from the spec: the ownership-scoped lookup every read, update
and delete performs — the query filters by the todo id AND the requesting
user's identity ("every read/update/delete must filter by the requesting
identity"). -/
def findOwned (user i : Nat) (todos : List Todo) : Option Todo :=
  todos.find? fun t => t.id == i && t.user_id == user

/-- Modelled from the spec: `get(user, id) → Todo`; NotFound whether the id
is absent or the row is owned by a different user. -/
def getTodo (user i : Nat) (s : TodoStore) : Except StoreError Todo :=
  match findOwned user i s.todos with
  | some t => .ok t
  | none => .error .NotFound

/-- Modelled from the spec: `create(user, title, completed=false) → Todo`;
rejects a title that is empty after trimming with a Validation error,
otherwise appends a fresh row owned by `user` (insertion order), with
`completed` defaulting to false when not supplied. -/
def createTodo (user : Nat) (title : String) (completed : Option Bool)
    (now : Nat) (s : TodoStore) : Except StoreError (Todo × TodoStore) :=
  if trimString title = "" then .error .Validation
  else
    let t : Todo :=
      { id := s.nextId, title := title, completed := completed.getD false,
        user_id := user, created_at := now, updated_at := now }
    .ok (t, { todos := s.todos ++ [t], nextId := s.nextId + 1 })

/-- Modelled from the spec: `update(user, id, partial)` — same
ownership-or-NotFound rule as get; applies only the supplied fields and
refreshes the modification timestamp. -/
def updateTodo (user i : Nat) (newTitle : Option String)
    (newCompleted : Option Bool) (now : Nat) (s : TodoStore) :
    Except StoreError (Todo × TodoStore) :=
  match findOwned user i s.todos with
  | none => .error .NotFound
  | some t =>
    let t2 : Todo :=
      { t with title := newTitle.getD t.title,
               completed := newCompleted.getD t.completed,
               updated_at := now }
    .ok (t2, { s with
      todos := s.todos.map fun u => if u.id == i && u.user_id == user then t2 else u })

/-- Modelled from the spec: `delete(user, id) → void` — same
ownership-or-NotFound rule; deletes the row when found. -/
def deleteTodo (user i : Nat) (s : TodoStore) : Except StoreError TodoStore :=
  match findOwned user i s.todos with
  | none => .error .NotFound
  | some _ =>
    .ok { s with todos := s.todos.filter fun t => !(t.id == i && t.user_id == user) }

/-- Well-formedness of the store: every stored row's id is below the
auto-increment counter (the database primary-key invariant). -/
def TodoStore.WF (s : TodoStore) : Prop :=
  ∀ t ∈ s.todos, t.id < s.nextId

/-! ## Credential Service (backend auth service)

Modelled from the spec: the Python backend implementing registration, login
and token verification is absent from the repository snapshot, so it is
modelled from the spec's sections 3 and 4.1 (all times in seconds). -/

/-- Modelled from the spec: the User row — unique identifier, unique
username, unique email, salted password hash (here: a salt and the salted
one-way hash value), creation timestamp. -/
structure User where
  id : Nat
  username : String
  email : String
  salt : Nat
  passwordHash : Nat
  created_at : Nat
deriving Repr, DecidableEq

/-- Modelled from the spec: a deterministic one-way salted hash standing in
for the backend's bcrypt-equivalent ("compute a salted one-way hash of the
password"). -/
def hashPassword (salt : Nat) (password : String) : Nat :=
  password.toList.foldl (fun h c => h * 131 + c.toNat) (salt * 131 + 7)

/-- Modelled from the spec: the signed token payload — "opaque bearer
string encoding user identifier and expiry timestamp". -/
structure TokenPayload where
  userId : Nat
  expiry : Nat
deriving Repr, DecidableEq

/-- Modelled from the spec: a deterministic keyed signature over the payload
standing in for the backend's JWT signature ("signed with a server-held
secret"). -/
def sign (secret : Nat) (p : TokenPayload) : Nat :=
  secret * 1000003 + p.userId * 1009 + p.expiry

/-- Modelled from the spec: a token as received on the wire — a payload
that may fail to decode (`none` = malformed) and the attached signature. -/
structure Token where
  payload : Option TokenPayload
  sig : Nat
deriving Repr, DecidableEq

/-- Modelled from the spec: error taxonomy of the credential service
(section 7: Unauthorized for bad credentials or bad/expired tokens,
Conflict for duplicate registration). -/
inductive AuthError where
  | Unauthorized
  | Conflict
deriving Repr, DecidableEq

/-- Token lifetime: the spec fixes the expiry at 30 minutes from issue time
(in seconds here). -/
def tokenExpirySeconds : Nat := 30 * 60

/-- Modelled from the spec: minting a token — the payload embeds the user
identifier and the expiry, and the signature is computed over that payload
with the server secret. -/
def mintToken (secret uid expiry : Nat) : Token :=
  { payload := some { userId := uid, expiry := expiry },
    sig := sign secret { userId := uid, expiry := expiry } }

/-- Modelled from the spec: `login(username, password) → Token`. Looks the
user up by username; if absent, or if the password hash does not verify,
signals Unauthorized with no distinction between the two cases. On success
mints a token whose payload carries the user's id and an expiry 30 minutes
from issue time, signed with the server secret. -/
def login (secret now : Nat) (users : List User) (username password : String) :
    Except AuthError Token :=
  match users.find? (fun u => u.username == username) with
  | none => .error .Unauthorized
  | some u =>
    if hashPassword u.salt password == u.passwordHash then
      .ok (mintToken secret u.id (now + tokenExpirySeconds))
    else .error .Unauthorized

/-- Modelled from the spec: `verify(token) → user identity`. Signals
Unauthorized if the payload is malformed, the signature is invalid, or the
expiry has passed (the token is valid until its expiry instant); on success
yields the embedded user identifier. -/
def verify (secret now : Nat) (tok : Token) : Except AuthError Nat :=
  match tok.payload with
  | none => .error .Unauthorized
  | some p =>
    if sign secret p ≠ tok.sig then .error .Unauthorized
    else if p.expiry < now then .error .Unauthorized
    else .ok p.userId

/-! ## Frontend: API client (`frontend/src/services/api.ts`) -/

/-- A JSON value, the result of `response.json()`. -/
inductive Json where
  | null
  | bool (b : Bool)
  | num (n : Int)
  | str (s : String)
  | arr (elems : List Json)
  | obj (fields : List (String × Json))

/-- An HTTP response as seen by `handleResponse`: the status code, and the
body's JSON parse — `some v` when `response.json()` resolves to `v`, `none`
when the body is not valid JSON and `response.json()` rejects. -/
structure Response where
  status : Nat
  jsonBody : Option Json

/-- Per the Fetch specification, `response.ok` is true exactly when the
status is in the 2xx range. -/
def Response.ok (r : Response) : Bool :=
  decide (200 ≤ r.status) && decide (r.status < 300)

/-- Looks up the `detail` field of a JSON object, as `error.detail` does. -/
def Json.detailField : Json → Option Json
  | .obj fields => (fields.find? fun f => f.1 == "detail").map (·.2)
  | _ => none

/-- The message computed for an ApiError: the error body's `detail` when it
is present and truthy, else the fallback used both by the
`.catch(() => ({ detail: 'An error occurred' }))` default object and by
`error.detail || 'An error occurred'`. The backend's `detail` is a string;
a non-string or empty (falsy) `detail` takes the fallback. -/
def errorDetail (body : Option Json) : String :=
  match body with
  | none => "An error occurred"
  | some j =>
    match j.detailField with
    | some (Json.str s) => if s = "" then "An error occurred" else s
    | _ => "An error occurred"

/-- The outcome of `handleResponse`: the parsed body on the happy path, a
thrown `ApiError` (with the response's status and a message), or the thrown
JSON syntax error when an ok response's body fails to parse. -/
inductive FetchOutcome where
  | body (v : Json)
  | apiError (status : Nat) (message : String)
  | jsonSyntaxError

/-- The `handleResponse` function of `frontend/src/services/api.ts`: when
the response is not ok it throws `ApiError(response.status, detail)`,
parsing the error body defensively; otherwise it returns `response.json()`,
whose rejection (invalid JSON) propagates uncaught. -/
def handleResponse (r : Response) : FetchOutcome :=
  if r.ok then
    match r.jsonBody with
    | some v => .body v
    | none => .jsonSyntaxError
  else .apiError r.status (errorDetail r.jsonBody)

/-- True exactly on the `apiError` outcome. -/
def FetchOutcome.isApiError : FetchOutcome → Bool
  | .apiError _ _ => true
  | _ => false

/-- True exactly on the `body` outcome (a parsed JSON body was returned). -/
def FetchOutcome.isBody : FetchOutcome → Bool
  | .body _ => true
  | _ => false

/-! ## Frontend: TodoList add handler (`frontend/src/pages/Home.tsx`) -/

/-- The TypeScript `CreateTodoData` interface: the request body of a create
call (`completed` optional). -/
structure CreateTodoData where
  title : String
  completed : Option Bool
deriving Repr, DecidableEq

namespace TodoList

/-- The guard-and-send logic of `TodoList.handleAddTodo`: with no token or
a whitespace-only input (`!newTodoTitle.trim()`, the empty string being
falsy) it returns without issuing a request; otherwise it calls
`api.todos.create(token, { title: newTodoTitle.trim() })`. The returned
value is the create request issued, or `none` when no request is sent. -/
def handleAddTodo (token : Option String) (newTodoTitle : String) :
    Option CreateTodoData :=
  match token with
  | none => none
  | some _ =>
    if trimString newTodoTitle = "" then none
    else some { title := trimString newTodoTitle, completed := none }

end TodoList

/-! ## Frontend: RegisterForm (`frontend/src/components/auth/RegisterForm.tsx`) -/

/-- The TypeScript `RegisterData` interface: what `onSubmit` receives. -/
structure RegisterData where
  username : String
  email : String
  password : String
deriving Repr, DecidableEq

/-- The `RegisterFormData` state: `RegisterData` plus `confirmPassword`. -/
structure RegisterFormData where
  username : String
  email : String
  password : String
  confirmPassword : String
deriving Repr, DecidableEq

/-- Character class `[A-Z0-9._%+-]` of the email pattern under the `i`
flag. -/
def isEmailLocalChar (c : Char) : Bool :=
  c.isAlpha || c.isDigit || c == '.' || c == '_' || c == '%' || c == '+' || c == '-'

/-- Character class `[A-Z0-9.-]` of the email pattern under the `i` flag. -/
def isEmailDomainChar (c : Char) : Bool :=
  c.isAlpha || c.isDigit || c == '.' || c == '-'

/-- The anchored email pattern of the form,
`/^[A-Z0-9._%+-]+@[A-Z0-9.-]+\.[A-Z]\x7b2,\x7d$/i`: the string decomposes as
a non-empty local part over its class, an `@`, a non-empty domain part over
its class, a dot, and at least two letters running to the end. The two
split points are searched exhaustively, matching the regex's semantics. -/
def emailMatches (s : String) : Bool :=
  let cs := s.toList
  (List.range (cs.length + 1)).any fun i =>
    (List.range (cs.length + 1)).any fun j =>
      match cs.drop i with
      | '@' :: afterAt =>
        (match afterAt.drop j with
         | '.' :: tld =>
           decide (1 ≤ i) && (cs.take i).all isEmailLocalChar
             && decide (1 ≤ j) && (afterAt.take j).all isEmailDomainChar
             && decide (2 ≤ tld.length) && tld.all Char.isAlpha
         | _ => false)
      | _ => false

/-- The field-level validation errors object built by
`RegisterForm.validateForm` (`none` = no error recorded for the field). -/
structure ValidationErrors where
  username : Option String
  email : Option String
  password : Option String
  confirmPassword : Option String
deriving Repr, DecidableEq

/-- No key was put into the errors object
(`Object.keys(errors).length === 0`). -/
def ValidationErrors.isEmpty (e : ValidationErrors) : Bool :=
  e.username.isNone && e.email.isNone && e.password.isNone && e.confirmPassword.isNone

namespace RegisterForm

/-- The `validateForm` function of `RegisterForm.tsx`: username required;
email required and matched against the email pattern; password required and
at least 8 characters; confirmPassword required and equal to password. -/
def validateForm (f : RegisterFormData) : ValidationErrors where
  username := if f.username = "" then some "用户名是必填项" else none
  email :=
    if f.email = "" then some "邮箱是必填项"
    else if !emailMatches f.email then some "请输入有效的邮箱地址"
    else none
  password :=
    if f.password = "" then some "密码是必填项"
    else if f.password.length < 8 then some "密码至少需要8个字符"
    else none
  confirmPassword :=
    if f.confirmPassword = "" then some "请确认密码"
    else if f.password ≠ f.confirmPassword then some "两次输入的密码不匹配"
    else none

/-- The `handleSubmit` function of `RegisterForm.tsx`: when `validateForm`
records no error it strips `confirmPassword` and calls `onSubmit` with the
rest; otherwise `onSubmit` is not called. The returned value is the data
passed to `onSubmit`, or `none` when it is not invoked. -/
def handleSubmit (f : RegisterFormData) : Option RegisterData :=
  if (validateForm f).isEmpty then
    some { username := f.username, email := f.email, password := f.password }
  else none

end RegisterForm

/-! ## Frontend: AuthContext (`frontend/src/contexts/AuthContext.tsx`) -/

/-- The `User` value the API returns inside an `AuthResponse` and the
context stores. -/
structure AuthUser where
  id : Nat
  username : String
  email : String
deriving Repr, DecidableEq

/-- The `AuthResponse` the API client resolves with on a successful login
or register call. -/
structure AuthResponse where
  user : AuthUser
  access_token : String
deriving Repr, DecidableEq

/-- The `AuthState` managed by `AuthProvider`. -/
structure AuthState where
  user : Option AuthUser
  token : Option String
  isAuthenticated : Bool
  isLoading : Bool
  error : Option String
deriving Repr, DecidableEq

/-- The initial state passed to `useState` in `AuthProvider`. -/
def initialAuthState : AuthState :=
  { user := none, token := none, isAuthenticated := false,
    isLoading := false, error := none }

/-- One completed call on the context: a `login` or `register` call whose
underlying API promise either resolves (`Except.ok`) or rejects with an
error message (`Except.error`), or a `logout`. -/
inductive AuthOp where
  | login (result : Except String AuthResponse)
  | register (result : Except String AuthResponse)
  | logout

/-- The state updates `AuthProvider.login` performs over one call: first
`setState(prev => ({ ...prev, isLoading: true, error: null }))`, then on
resolution the full success state, or on rejection
`setState(prev => ({ ...prev, isLoading: false, error: message }))`. -/
def applyLogin (s : AuthState) (result : Except String AuthResponse) : AuthState :=
  let s1 := { s with isLoading := true, error := none }
  match result with
  | .ok resp =>
    { user := some resp.user, token := some resp.access_token,
      isAuthenticated := true, isLoading := false, error := none }
  | .error msg => { s1 with isLoading := false, error := some msg }

/-- The state updates `AuthProvider.register` performs over one call; the
code is identical to `login` with the register API call substituted. -/
def applyRegister (s : AuthState) (result : Except String AuthResponse) : AuthState :=
  let s1 := { s with isLoading := true, error := none }
  match result with
  | .ok resp =>
    { user := some resp.user, token := some resp.access_token,
      isAuthenticated := true, isLoading := false, error := none }
  | .error msg => { s1 with isLoading := false, error := some msg }

/-- The state update of `AuthProvider.logout`. -/
def applyLogout (_s : AuthState) : AuthState :=
  { user := none, token := none, isAuthenticated := false,
    isLoading := false, error := none }

/-- One operation's effect on the context state. -/
def applyAuthOp (s : AuthState) : AuthOp → AuthState
  | .login r => applyLogin s r
  | .register r => applyRegister s r
  | .logout => applyLogout s

/-- A full `login` call: the state transition together with the outcome the
caller observes — the `catch` block re-throws the error, so a rejected API
call surfaces to the caller as the same rejection. -/
def loginCall (s : AuthState) (r : Except String AuthResponse) :
    AuthState × Except String Unit :=
  (applyLogin s r, r.map fun _ => ())

/-- A full `register` call, analogous to `loginCall`. -/
def registerCall (s : AuthState) (r : Except String AuthResponse) :
    AuthState × Except String Unit :=
  (applyRegister s r, r.map fun _ => ())

/-! ## Helper lemmas -/

lemma findOwned_eq_none (user i : Nat) (l : List Todo)
    (h : ∀ t ∈ l, t.id = i → t.user_id ≠ user) : findOwned user i l = none := by
  apply List.find?_eq_none.mpr
  intro t ht
  simp only [Bool.and_eq_true, beq_iff_eq, not_and]
  intro hid
  exact h t ht hid

lemma findOwned_append_fresh (user i : Nat) (l : List Todo) (t : Todo)
    (hfresh : ∀ u ∈ l, u.id ≠ t.id) (hid : t.id = i) (huser : t.user_id = user) :
    findOwned user i (l ++ [t]) = some t := by
  induction l with
  | nil =>
    simp [findOwned, List.find?, hid, huser]
  | cons u l ih =>
    have hu : u.id ≠ t.id := hfresh u (List.mem_cons_self u l)
    have hrest : ∀ v ∈ l, v.id ≠ t.id := fun v hv => hfresh v (List.mem_cons_of_mem u hv)
    have hui : (u.id == i) = false := by
      simp only [beq_eq_false_iff_ne]
      rw [← hid] at *
      exact hu
    simp only [findOwned, List.cons_append, List.find?, hui, Bool.false_and]
    exact ih hrest

lemma findOwned_filter_self (user i : Nat) (l : List Todo) :
    findOwned user i (l.filter fun t => !(t.id == i && t.user_id == user)) = none := by
  apply List.find?_eq_none.mpr
  intro t ht
  rw [List.mem_filter] at ht
  have h2 := ht.2
  simp only [Bool.not_eq_eq_eq_not, Bool.not_true] at h2
  simp [h2]

/-! ## Claim theorems -/

/-- C1: a get, update or delete request by a user who does not own the Todo
with the requested id (e.g. it was created by a distinct user A) returns
NotFound and never the Todo's data, and the response is the very same
NotFound returned when no Todo with that id exists at all: under the
primary-key uniqueness of ids, a request by `userB` on the id of a Todo
owned by someone else is NotFound for all three operations, and equals the
response for an id `j` that no Todo carries. -/
theorem cross_user_requests_not_found (s : TodoStore) (t : Todo) (userB : Nat)
    (ht : t ∈ s.todos) (hown : t.user_id ≠ userB)
    (huniq : ∀ u ∈ s.todos, u.id = t.id → u = t)
    (nt : Option String) (nc : Option Bool) (now : Nat)
    (j : Nat) (hj : ∀ u ∈ s.todos, u.id ≠ j) :
    getTodo userB t.id s = .error .NotFound
    ∧ updateTodo userB t.id nt nc now s = .error .NotFound
    ∧ deleteTodo userB t.id s = .error .NotFound
    ∧ getTodo userB j s = getTodo userB t.id s
    ∧ updateTodo userB j nt nc now s = updateTodo userB t.id nt nc now s
    ∧ deleteTodo userB j s = deleteTodo userB t.id s := by
  have hnone : findOwned userB t.id s.todos = none := by
    apply findOwned_eq_none
    intro u hu hid
    rw [huniq u hu hid]
    exact hown
  have hjnone : findOwned userB j s.todos = none := by
    apply findOwned_eq_none
    intro u hu hid
    exact absurd hid (hj u hu)
  refine ⟨?_, ?_, ?_, ?_, ?_, ?_⟩ <;>
    simp only [getTodo, updateTodo, deleteTodo, hnone, hjnone]

/-- C1 witness: a concrete store holding Alice's Todo; Bob's get on its id
answers NotFound identically to a nonexistent id, by the theorem applied at
that store. -/
theorem cross_user_requests_not_found_witness :
    getTodo 2 1 ⟨[⟨1, "Buy milk", false, 1, 0, 0⟩], 2⟩ = .error .NotFound
    ∧ getTodo 2 99 ⟨[⟨1, "Buy milk", false, 1, 0, 0⟩], 2⟩
        = getTodo 2 1 ⟨[⟨1, "Buy milk", false, 1, 0, 0⟩], 2⟩ := by
  have h := cross_user_requests_not_found
    ⟨[⟨1, "Buy milk", false, 1, 0, 0⟩], 2⟩ ⟨1, "Buy milk", false, 1, 0, 0⟩
    2 (by simp) (by decide) (by simp) none none 0 99 (by simp)
  exact ⟨h.1, h.2.2.2.1⟩

/-- C5: once delete(user, id) has succeeded, a second delete(user, id) on
the resulting store returns NotFound rather than success — the terminal
state of repeated deletion. -/
theorem delete_twice_not_found (user i : Nat) (s s' : TodoStore)
    (h : deleteTodo user i s = .ok s') :
    deleteTodo user i s' = .error .NotFound := by
  have hs' : s'.todos = s.todos.filter fun t => !(t.id == i && t.user_id == user) := by
    unfold deleteTodo at h
    cases hf : findOwned user i s.todos with
    | none => rw [hf] at h; exact absurd h (by simp)
    | some u =>
      rw [hf] at h
      simp only [Except.ok.injEq] at h
      rw [← h]
  simp only [deleteTodo, hs', findOwned_filter_self]

/-- C5 witness: deleting Alice's only Todo succeeds, and the immediate
second delete answers NotFound, by the theorem applied at that store. -/
theorem delete_twice_not_found_witness :
    deleteTodo 1 1 (⟨[], 2⟩ : TodoStore) = .error .NotFound :=
  delete_twice_not_found 1 1 ⟨[⟨1, "Buy milk", false, 1, 0, 0⟩], 2⟩ ⟨[], 2⟩ (by rfl)

/-- C6: immediately after create(user, title) returns a fresh Todo,
get(user, id) on the new id returns that Todo; its title is the created
title and its completed flag is false when `completed` was not supplied
(the default). Requires the store's primary-key invariant (every stored id
is below the auto-increment counter). -/
theorem create_get_round_trip (user : Nat) (title : String)
    (completed : Option Bool) (now : Nat) (s : TodoStore)
    (hwf : s.WF) (t : Todo) (s' : TodoStore)
    (h : createTodo user title completed now s = .ok (t, s')) :
    getTodo user t.id s' = .ok t
    ∧ t.title = title
    ∧ t.user_id = user
    ∧ (completed = none → t.completed = false) := by
  unfold createTodo at h
  by_cases htrim : trimString title = ""
  · rw [if_pos htrim] at h
    exact absurd h (by simp)
  · rw [if_neg htrim] at h
    simp only [Except.ok.injEq, Prod.mk.injEq] at h
    obtain ⟨hteq, hseq⟩ := h
    subst hteq
    subst hseq
    have hfind : findOwned user s.nextId
        (s.todos ++ [⟨s.nextId, title, completed.getD false, user, now, now⟩])
        = some ⟨s.nextId, title, completed.getD false, user, now, now⟩ := by
      apply findOwned_append_fresh
      · intro u hu
        exact Nat.ne_of_lt (hwf u hu)
      · rfl
      · rfl
    refine ⟨?_, rfl, rfl, fun hc => by rw [hc]; rfl⟩
    simp only [getTodo]
    rw [hfind]

/-- C6 witness: creating "Buy milk" in the empty store and reading it back
yields the same Todo, with completed defaulted to false, by the theorem
applied at that store. -/
theorem create_get_round_trip_witness :
    getTodo 1 1 ⟨[⟨1, "Buy milk", false, 1, 7, 7⟩], 2⟩
      = .ok ⟨1, "Buy milk", false, 1, 7, 7⟩
    ∧ (⟨1, "Buy milk", false, 1, 7, 7⟩ : Todo).completed = false := by
  have h := create_get_round_trip 1 "Buy milk" none 7 ⟨[], 1⟩
    (by intro t ht; simp at ht) ⟨1, "Buy milk", false, 1, 7, 7⟩
    ⟨[⟨1, "Buy milk", false, 1, 7, 7⟩], 2⟩ (by rfl)
  exact ⟨h.1, h.2.2.2 rfl⟩

/-- C2: verify(token) signals Unauthorized when the payload is malformed,
when the signature is invalid, and when the expiry lies in the past — the
last even for a well-formed, correctly signed token (the signature
hypothesis is arbitrary, so it covers the correctly signed case) — and a
token minted by login carries an expiry 30 minutes (1800 seconds) from
issue time, signed with the server secret. -/
theorem verify_rejects_and_login_expiry (secret now : Nat) (tok : Token)
    (users : List User) (username password : String) :
    (tok.payload = none → verify secret now tok = .error .Unauthorized)
    ∧ (∀ p, tok.payload = some p → tok.sig ≠ sign secret p →
        verify secret now tok = .error .Unauthorized)
    ∧ (∀ p, tok.payload = some p → p.expiry < now →
        verify secret now tok = .error .Unauthorized)
    ∧ (∀ t, login secret now users username password = .ok t →
        ∃ p, t.payload = some p ∧ p.expiry = now + 30 * 60 ∧ t.sig = sign secret p) := by
  refine ⟨?_, ?_, ?_, ?_⟩
  · intro hmal
    simp only [verify, hmal]
  · intro p hp hsig
    simp only [verify, hp]
    rw [if_pos (Ne.symm hsig)]
  · intro p hp hexp
    simp only [verify, hp]
    by_cases hsig : sign secret p ≠ tok.sig
    · rw [if_pos hsig]
    · rw [if_neg hsig, if_pos hexp]
  · intro t hlogin
    cases hu : users.find? (fun u => u.username == username) with
    | none => simp [login, hu] at hlogin
    | some u =>
      simp only [login, hu] at hlogin
      by_cases hpw : (hashPassword u.salt password == u.passwordHash) = true
      · rw [if_pos hpw] at hlogin
        simp only [Except.ok.injEq] at hlogin
        refine ⟨{ userId := u.id, expiry := now + tokenExpirySeconds }, ?_, ?_, ?_⟩
        · rw [← hlogin]; rfl
        · rfl
        · rw [← hlogin]; rfl
      · rw [if_neg hpw] at hlogin
        exact absurd hlogin (by simp)

/-- C2 witness: the theorem applied at concrete tokens — a malformed token,
a token with a tampered signature, a correctly signed token whose expiry 5
lies before now = 1000, and a concrete successful login whose token expires
1800 seconds after issue. -/
theorem verify_rejects_and_login_expiry_witness :
    verify 7 1000 ⟨none, 0⟩ = .error .Unauthorized
    ∧ verify 7 1000 ⟨some ⟨1, 5000⟩, sign 7 ⟨1, 5000⟩ + 1⟩ = .error .Unauthorized
    ∧ verify 7 1000 ⟨some ⟨1, 5⟩, sign 7 ⟨1, 5⟩⟩ = .error .Unauthorized
    ∧ ∃ p, (Token.payload ⟨some ⟨1, 100 + 30 * 60⟩, sign 7 ⟨1, 100 + 30 * 60⟩⟩) = some p
        ∧ p.expiry = 100 + 30 * 60 := by
  refine ⟨?_, ?_, ?_, ?_⟩
  · exact (verify_rejects_and_login_expiry 7 1000 ⟨none, 0⟩ [] "" "").1 rfl
  · exact (verify_rejects_and_login_expiry 7 1000 ⟨some ⟨1, 5000⟩, sign 7 ⟨1, 5000⟩ + 1⟩
      [] "" "").2.1 ⟨1, 5000⟩ rfl (by simp)
  · exact (verify_rejects_and_login_expiry 7 1000 ⟨some ⟨1, 5⟩, sign 7 ⟨1, 5⟩⟩
      [] "" "").2.2.1 ⟨1, 5⟩ rfl (by decide)
  · obtain ⟨p, hp, hexp, -⟩ :=
      (verify_rejects_and_login_expiry 7 100 ⟨none, 0⟩
        [⟨1, "alice", "a@x.com", 3, hashPassword 3 "pw12345678", 0⟩] "alice"
        "pw12345678").2.2.2
      ⟨some ⟨1, 100 + 30 * 60⟩, sign 7 ⟨1, 100 + 30 * 60⟩⟩ (by rfl)
    exact ⟨p, hp, hexp⟩

/-- C3: a login attempt with an unknown username and a login attempt with a
known username but non-verifying password both signal Unauthorized, and the
two responses are the same value (two-run indistinguishability). -/
theorem login_failures_indistinguishable (secret now : Nat) (users : List User)
    (name1 pw1 name2 pw2 : String)
    (h1 : users.find? (fun u => u.username == name1) = none)
    (u : User)
    (h2 : users.find? (fun u => u.username == name2) = some u)
    (h2pw : hashPassword u.salt pw2 ≠ u.passwordHash) :
    login secret now users name1 pw1 = .error .Unauthorized
    ∧ login secret now users name2 pw2 = .error .Unauthorized
    ∧ login secret now users name1 pw1 = login secret now users name2 pw2 := by
  have e1 : login secret now users name1 pw1 = .error .Unauthorized := by
    simp only [login, h1]
  have e2 : login secret now users name2 pw2 = .error .Unauthorized := by
    simp only [login, h2]
    rw [if_neg (by simpa using h2pw)]
  exact ⟨e1, e2, e1.trans e2.symm⟩

/-- C3 witness: with only Alice registered, logging in as the unknown "bob"
and logging in as "alice" with the wrong password produce the identical
Unauthorized response, by the theorem applied at that user table. -/
theorem login_failures_indistinguishable_witness :
    login 7 0 [⟨1, "alice", "a@x.com", 3, hashPassword 3 "pw12345678", 0⟩]
        "bob" "pw12345678" = .error .Unauthorized
    ∧ login 7 0 [⟨1, "alice", "a@x.com", 3, hashPassword 3 "pw12345678", 0⟩]
        "bob" "pw12345678"
      = login 7 0 [⟨1, "alice", "a@x.com", 3, hashPassword 3 "pw12345678", 0⟩]
        "alice" "wrongpass" := by
  have h := login_failures_indistinguishable 7 0
    [⟨1, "alice", "a@x.com", 3, hashPassword 3 "pw12345678", 0⟩]
    "bob" "pw12345678" "alice" "wrongpass" (by rfl)
    ⟨1, "alice", "a@x.com", 3, hashPassword 3 "pw12345678", 0⟩ (by rfl) (by decide)
  exact ⟨h.1, h.2.2⟩

/-- C4: create(user, title) succeeds exactly when the title is non-empty
after trimming and fails with a Validation error otherwise; and the
frontend add-todo handler issues a create request only when a token is
present and the trimmed input is non-empty, always sending the trimmed
title. -/
theorem create_title_validation (user : Nat) (title : String)
    (completed : Option Bool) (now : Nat) (s : TodoStore)
    (tok : Option String) (input : String) :
    (trimString title = "" → createTodo user title completed now s = .error .Validation)
    ∧ (trimString title ≠ "" →
        ∃ t s', createTodo user title completed now s = .ok (t, s'))
    ∧ (∀ req, TodoList.handleAddTodo tok input = some req →
        trimString input ≠ "" ∧ req.title = trimString input) := by
  refine ⟨?_, ?_, ?_⟩
  · intro he
    simp only [createTodo, if_pos he]
  · intro hne
    refine ⟨⟨s.nextId, title, completed.getD false, user, now, now⟩,
      ⟨s.todos ++ [⟨s.nextId, title, completed.getD false, user, now, now⟩],
        s.nextId + 1⟩, ?_⟩
    simp only [createTodo, if_neg hne]
  · intro req hreq
    cases tok with
    | none => simp [TodoList.handleAddTodo] at hreq
    | some tk =>
      simp only [TodoList.handleAddTodo] at hreq
      by_cases he : trimString input = ""
      · rw [if_pos he] at hreq
        exact absurd hreq (by simp)
      · rw [if_neg he] at hreq
        simp only [Option.some.injEq] at hreq
        exact ⟨he, by rw [← hreq]⟩

/-- C4 witness: the theorem applied at concrete inputs — a whitespace-only
title is rejected with Validation, and the handler given the raw input
" Buy milk " sends exactly the trimmed title "Buy milk". -/
theorem create_title_validation_witness :
    createTodo 1 "   " none 0 ⟨[], 1⟩ = .error .Validation
    ∧ trimString " Buy milk " ≠ ""
    ∧ CreateTodoData.title ⟨"Buy milk", none⟩ = trimString " Buy milk " := by
  have h1 := (create_title_validation 1 "   " none 0 ⟨[], 1⟩ none "").1 (by rfl)
  have h3 := (create_title_validation 1 "x" none 0 ⟨[], 1⟩ (some "tok")
    " Buy milk ").2.2 ⟨"Buy milk", none⟩ (by rfl)
  exact ⟨h1, h3.1, h3.2.symm⟩

lemma emailMatches_empty : emailMatches "" = false := rfl

lemma ne_empty_of_eight_le_length (p : String) (h : 8 ≤ p.length) : p ≠ "" := by
  intro he
  rw [he] at h
  simp at h

lemma validateForm_username_isNone (f : RegisterFormData) :
    (RegisterForm.validateForm f).username.isNone = true ↔ f.username ≠ "" := by
  by_cases h : f.username = "" <;> simp [RegisterForm.validateForm, h]

lemma validateForm_email_isNone (f : RegisterFormData) :
    (RegisterForm.validateForm f).email.isNone = true ↔ emailMatches f.email = true := by
  by_cases h : f.email = ""
  · simp [RegisterForm.validateForm, h, emailMatches_empty]
  · by_cases h2 : emailMatches f.email <;> simp [RegisterForm.validateForm, h, h2]

lemma validateForm_password_isNone (f : RegisterFormData) :
    (RegisterForm.validateForm f).password.isNone = true ↔ 8 ≤ f.password.length := by
  by_cases h : f.password = ""
  · simp [RegisterForm.validateForm, h]
  · by_cases h2 : f.password.length < 8 <;>
      simp [RegisterForm.validateForm, h, h2] <;> omega

lemma validateForm_confirm_isNone (f : RegisterFormData) :
    (RegisterForm.validateForm f).confirmPassword.isNone = true ↔
      (f.confirmPassword ≠ "" ∧ f.password = f.confirmPassword) := by
  by_cases h : f.confirmPassword = ""
  · simp [RegisterForm.validateForm, h]
  · by_cases h2 : f.password = f.confirmPassword <;>
      simp [RegisterForm.validateForm, h, h2]

lemma validateForm_isEmpty_iff (f : RegisterFormData) :
    (RegisterForm.validateForm f).isEmpty = true ↔
      (f.username ≠ "" ∧ emailMatches f.email = true ∧ 8 ≤ f.password.length
        ∧ f.confirmPassword = f.password) := by
  simp only [ValidationErrors.isEmpty, Bool.and_eq_true,
    validateForm_username_isNone, validateForm_email_isNone,
    validateForm_password_isNone, validateForm_confirm_isNone, and_assoc]
  constructor
  · rintro ⟨h1, h2, h3, -, h5⟩
    exact ⟨h1, h2, h3, h5.symm⟩
  · rintro ⟨h1, h2, h3, h4⟩
    refine ⟨h1, h2, h3, ?_, h4.symm⟩
    rw [h4]
    exact ne_empty_of_eight_le_length _ h3

/-- C7: the RegisterForm submit handler invokes `onSubmit` exactly when the
username is non-empty, the email matches the form's email pattern, the
password has at least 8 characters, and the confirm-password field equals
the password; and the data passed to `onSubmit` consists of the username,
email and password, with `confirmPassword` stripped. -/
theorem register_form_submit (f : RegisterFormData) :
    ((RegisterForm.handleSubmit f).isSome = true ↔
      (f.username ≠ "" ∧ emailMatches f.email = true ∧ 8 ≤ f.password.length
        ∧ f.confirmPassword = f.password))
    ∧ ∀ d, RegisterForm.handleSubmit f = some d →
        d = ⟨f.username, f.email, f.password⟩ := by
  constructor
  · rw [← validateForm_isEmpty_iff]
    by_cases h : (RegisterForm.validateForm f).isEmpty = true <;>
      simp [RegisterForm.handleSubmit, h]
  · intro d hd
    by_cases h : (RegisterForm.validateForm f).isEmpty = true
    · simp only [RegisterForm.handleSubmit, if_pos h, Option.some.injEq] at hd
      exact hd.symm
    · simp [RegisterForm.handleSubmit, if_neg h] at hd

/-- C7 witness: the theorem applied at a concrete valid form — with
username "alice", a pattern-matching email, an 8+ character password and a
matching confirmation, `onSubmit` is invoked, and the submitted data for
that form is exactly its username, email and password. -/
theorem register_form_submit_witness :
    (RegisterForm.handleSubmit ⟨"alice", "a@x.com", "pw12345678", "pw12345678"⟩).isSome
      = true
    ∧ (⟨"alice", "a@x.com", "pw12345678"⟩ : RegisterData)
      = ⟨"alice", "a@x.com", "pw12345678"⟩ := by
  refine ⟨?_, ?_⟩
  · exact (register_form_submit ⟨"alice", "a@x.com", "pw12345678", "pw12345678"⟩).1.mpr
      ⟨by decide, by rfl, by decide, rfl⟩
  · exact (register_form_submit ⟨"alice", "a@x.com", "pw12345678", "pw12345678"⟩).2
      ⟨"alice", "a@x.com", "pw12345678"⟩ (by rfl)

lemma authInv_applyOp (s : AuthState) (h : s.isAuthenticated = s.token.isSome)
    (op : AuthOp) :
    (applyAuthOp s op).isAuthenticated = (applyAuthOp s op).token.isSome := by
  cases op with
  | login r => cases r <;> simp [applyAuthOp, applyLogin, h]
  | register r => cases r <;> simp [applyAuthOp, applyRegister, h]
  | logout => simp [applyAuthOp, applyLogout]

/-- C8: after any sequence of login, register and logout operations (each
succeeding or failing) starting from the initial AuthContext state,
`isAuthenticated` is true exactly when `token` is non-null. -/
theorem auth_state_isAuthenticated_iff_token (ops : List AuthOp) :
    (ops.foldl applyAuthOp initialAuthState).isAuthenticated
      = (ops.foldl applyAuthOp initialAuthState).token.isSome := by
  have step : ∀ (l : List AuthOp) (s : AuthState),
      s.isAuthenticated = s.token.isSome →
      (l.foldl applyAuthOp s).isAuthenticated = (l.foldl applyAuthOp s).token.isSome := by
    intro l
    induction l with
    | nil => intro s h; exact h
    | cons op rest ih =>
      intro s h
      exact ih _ (authInv_applyOp s h op)
  exact step ops initialAuthState rfl

/-- C9: when a login or register call fails, the resulting state keeps
`user`, `token` and `isAuthenticated` unchanged; only `isLoading` (reset to
false) and `error` (set to the failure message) change, and the error is
re-thrown to the caller. -/
theorem auth_failure_frame (s : AuthState) (e : String) :
    ((loginCall s (.error e)).1.user = s.user
      ∧ (loginCall s (.error e)).1.token = s.token
      ∧ (loginCall s (.error e)).1.isAuthenticated = s.isAuthenticated
      ∧ (loginCall s (.error e)).1.isLoading = false
      ∧ (loginCall s (.error e)).1.error = some e
      ∧ (loginCall s (.error e)).2 = .error e)
    ∧ ((registerCall s (.error e)).1.user = s.user
      ∧ (registerCall s (.error e)).1.token = s.token
      ∧ (registerCall s (.error e)).1.isAuthenticated = s.isAuthenticated
      ∧ (registerCall s (.error e)).1.isLoading = false
      ∧ (registerCall s (.error e)).1.error = some e
      ∧ (registerCall s (.error e)).2 = .error e) :=
  ⟨⟨rfl, rfl, rfl, rfl, rfl, rfl⟩, ⟨rfl, rfl, rfl, rfl, rfl, rfl⟩⟩

/-- C10 counterexample: an ok response (status 200) whose body is not valid
JSON — `handleResponse` neither returns a parsed JSON body nor throws an
ApiError there; the `response.json()` rejection propagates instead, so the
claim's "otherwise the parsed JSON body is returned" fails at this
input. -/
theorem handle_response_ok_unparsable_body :
    Response.ok ⟨200, none⟩ = true
    ∧ handleResponse ⟨200, none⟩ = .jsonSyntaxError
    ∧ (handleResponse ⟨200, none⟩).isBody = false
    ∧ (handleResponse ⟨200, none⟩).isApiError = false :=
  ⟨rfl, rfl, rfl, rfl⟩

/-- C10 (amended): an ApiError is thrown by `handleResponse` exactly when
the response is not ok (status outside 2xx), and it carries the response's
status code; when the response is ok and its body parses as JSON, the
parsed body is returned (an ok response whose body is not valid JSON
instead surfaces the JSON parse rejection, which is not an ApiError). -/
theorem handle_response_amended (r : Response) :
    ((handleResponse r).isApiError = true ↔ r.ok = false)
    ∧ (∀ st msg, handleResponse r = .apiError st msg → st = r.status)
    ∧ (∀ v, r.jsonBody = some v → r.ok = true → handleResponse r = .body v) := by
  refine ⟨?_, ?_, ?_⟩
  · by_cases h : r.ok = true
    · cases hb : r.jsonBody <;>
        simp [handleResponse, h, hb, FetchOutcome.isApiError]
    · simp [handleResponse, h, FetchOutcome.isApiError]
  · intro st msg hyp
    by_cases h : r.ok = true
    · cases hb : r.jsonBody <;> simp [handleResponse, h, hb] at hyp
    · simp only [handleResponse, if_neg h, FetchOutcome.apiError.injEq] at hyp
      exact hyp.1.symm
  · intro v hv hok
    simp [handleResponse, hok, hv]

/-- C10 amended witness: the theorem applied at concrete responses — a 404
with a JSON error body throws an ApiError, whose status the second conjunct
pins to 404, and a 200 with a parsing body returns the parsed body. -/
theorem handle_response_amended_witness :
    (handleResponse ⟨404, some (Json.obj [("detail", Json.str "Not found")])⟩).isApiError
      = true
    ∧ (404 : Nat) = Response.status ⟨404, some (Json.obj [("detail", Json.str "Not found")])⟩
    ∧ handleResponse ⟨200, some (Json.str "hi")⟩ = .body (Json.str "hi") := by
  refine ⟨?_, ?_, ?_⟩
  · exact (handle_response_amended
      ⟨404, some (Json.obj [("detail", Json.str "Not found")])⟩).1.mpr rfl
  · exact (handle_response_amended
      ⟨404, some (Json.obj [("detail", Json.str "Not found")])⟩).2.1 404 "Not found" rfl
  · exact (handle_response_amended ⟨200, some (Json.str "hi")⟩).2.2
      (Json.str "hi") rfl rfl

end TddTodo
